import Mathlib

/-!
Shallow embedding of the two-service demo:
`src/muti-region-project/microservices-demo/src/productservice/app.py` and
`src/muti-region-project/microservices-demo/src/cartservice/app.py`.

The product service is a single Flask route returning a hardcoded catalog.
The cart service is a single Flask route that performs
`requests.get(PRODUCT_SERVICE_URL).json()`, slices the parsed value with
`[:2]`, and returns `jsonify({"cart": cart_items})`.

JSON values are modelled by an inductive `Json` (numbers as `Int`; a Python
float in a slice position fails identically to an int, so `Int` loses
nothing the claims depend on).  The outbound HTTP call is modelled by a
small effect monad `M`: a computation takes the network (a map from URL to
upstream outcome) and yields an `Except`-style result together with the
trace of outbound calls it issued.  Faithful to the `requests` library:
`requests.get` raises only on network failure (it does not raise for HTTP
error statuses), and `Response.json()` parses the body regardless of the
status code, raising only when the body is not valid JSON.  Python slicing
`v[:2]` succeeds on lists (first two elements) and strings (first two
characters) and raises `TypeError` on dicts, numbers, booleans and `None`.
-/

/-- A JSON value, as produced by `Response.json()` in Python. -/
inductive Json where
  | null : Json
  | bool (b : Bool) : Json
  | num (n : Int) : Json
  | str (s : String) : Json
  | arr (xs : List Json) : Json
  | obj (fields : List (String × Json)) : Json

/-- An upstream HTTP response: a status code and a body.  The body is
`some v` when it is valid JSON parsing to `v`, and `none` when it is not
valid JSON (so `Response.json()` would raise). -/
structure UpstreamHttp where
  status : Nat
  body : Option Json

/-- Outcome of one outbound `requests.get`: either the request itself fails
(connection refused, DNS failure, timeout — `requests` raises), or some
HTTP response comes back. -/
inductive UpstreamOutcome where
  | netFail : UpstreamOutcome
  | response (r : UpstreamHttp) : UpstreamOutcome

/-- The Python exceptions the cart handler can let escape. -/
inductive PyError where
  | requestException : PyError
  | jsonDecodeError : PyError
  | typeError : PyError

/-- An HTTP reply produced by one of the two Flask handlers via `jsonify`:
status 200 and a JSON body. -/
structure HttpReply where
  status : Nat
  body : Json

/-- One outbound HTTP call, as recorded in the effect trace. -/
structure OutCall where
  method : String
  url : String

/-- The network as seen from the cart service: what a GET to each URL
produces. -/
def Network : Type := String → UpstreamOutcome

/-- Effectful computation: reads the network, yields a result or an escaped
Python exception, and records the outbound calls issued. -/
def M (α : Type) : Type := Network → Except PyError α × List OutCall

/-- Return, issuing no outbound call. -/
def M.pure {α : Type} (a : α) : M α := fun _ => (Except.ok a, [])

/-- Sequencing: on an escaped exception the continuation never runs (Python
exception propagation); traces concatenate. -/
def M.bind {α β : Type} (m : M α) (f : α → M β) : M β := fun net =>
  match m net with
  | (Except.ok a, t) =>
      match f a net with
      | (r, t2) => (r, t ++ t2)
  | (Except.error e, t) => (Except.error e, t)

/-- Embed a pure fallible step (no outbound call). -/
def M.lift {α : Type} (e : Except PyError α) : M α := fun _ => (e, [])

/-- `PRODUCT_SERVICE_URL = "http://productservice:5001/products"` in
`cartservice/app.py`. -/
def PRODUCT_SERVICE_URL : String := "http://productservice:5001/products"

/-- `requests.get(url)`: one outbound GET is recorded; a network failure
raises `requests.exceptions.RequestException`; any HTTP response — whatever
its status code — is returned without raising. -/
def requestsGet (url : String) : M UpstreamHttp := fun net =>
  match net url with
  | UpstreamOutcome.netFail => (Except.error PyError.requestException, [⟨"GET", url⟩])
  | UpstreamOutcome.response r => (Except.ok r, [⟨"GET", url⟩])

/-- `Response.json()`: parses the body as JSON regardless of the HTTP
status code; raises `JSONDecodeError` when the body is not valid JSON. -/
def jsonOfResponse (r : UpstreamHttp) : Except PyError Json :=
  match r.body with
  | none => Except.error PyError.jsonDecodeError
  | some v => Except.ok v

/-- Python `v[:2]`: lists and strings slice; every other JSON value raises
`TypeError`. -/
def pySliceTwo : Json → Except PyError Json
  | Json.arr xs => Except.ok (Json.arr (xs.take 2))
  | Json.str s => Except.ok (Json.str (s.take 2))
  | _ => Except.error PyError.typeError

/-- `jsonify({"cart": v})`: HTTP 200 with the object body. -/
def jsonify_cart (v : Json) : HttpReply :=
  ⟨200, Json.obj [("cart", v)]⟩

/-- The `/cart` handler of `cartservice/app.py`:
`products = requests.get(PRODUCT_SERVICE_URL).json()`,
`cart_items = products[:2]`, `return jsonify({"cart": cart_items})`. -/
def cart : M HttpReply :=
  M.bind (requestsGet PRODUCT_SERVICE_URL) fun resp =>
  M.bind (M.lift (jsonOfResponse resp)) fun products =>
  M.bind (M.lift (pySliceTwo products)) fun cart_items =>
  M.pure (jsonify_cart cart_items)

/-- The result component of one `/cart` run when the GET to the product
service URL yields outcome `u`. -/
def cartResult (u : UpstreamOutcome) : Except PyError HttpReply :=
  (cart (fun _ => u)).1

/-- The `n`-th `/cart` call within one process lifetime against a fixed
network; the handler consults no per-call or mutable process state, so the
index is unused. -/
def cartCall (net : Network) (_ : Nat) : Except PyError HttpReply × List OutCall :=
  cart net

/-- The hardcoded catalog `sample_products` of `productservice/app.py`. -/
def sample_products : List Json :=
  [ Json.obj [("id", Json.num 1), ("name", Json.str "Laptop")]
  , Json.obj [("id", Json.num 2), ("name", Json.str "Mouse")]
  , Json.obj [("id", Json.num 3), ("name", Json.str "Keyboard")] ]

/-- The `/products` handler of `productservice/app.py`:
`return jsonify(sample_products)`. -/
def products : HttpReply :=
  ⟨200, Json.arr sample_products⟩

/-- The `n`-th `/products` call within one process lifetime; the handler
consults no state, so the index is unused. -/
def productsCall (_ : Nat) : HttpReply :=
  products

/-- The denotation of one `/cart` run, split by the upstream outcome. -/
def cartPure (u : UpstreamOutcome) : Except PyError HttpReply :=
  match u with
  | UpstreamOutcome.netFail => Except.error PyError.requestException
  | UpstreamOutcome.response r =>
      match jsonOfResponse r with
      | Except.error e => Except.error e
      | Except.ok v =>
          match pySliceTwo v with
          | Except.error e => Except.error e
          | Except.ok c => Except.ok (jsonify_cart c)

/-- The claim of section 7 of the spec, as stated: the outbound call "fails"
when the network fails, the body is not valid JSON, or the status is not
2xx. -/
def outboundFailed (u : UpstreamOutcome) : Prop :=
  u = UpstreamOutcome.netFail ∨
    ∃ r, u = UpstreamOutcome.response r ∧
      (r.body = none ∨ r.status < 200 ∨ 300 ≤ r.status)

theorem cart_eq (net : Network) :
    cart net = (cartPure (net PRODUCT_SERVICE_URL), [⟨"GET", PRODUCT_SERVICE_URL⟩]) := by
  show M.bind (requestsGet PRODUCT_SERVICE_URL) _ net = _
  cases h : net PRODUCT_SERVICE_URL with
  | netFail =>
      simp [M.bind, requestsGet, h, cartPure]
  | response r =>
      cases hb : jsonOfResponse r with
      | error e =>
          simp [M.bind, M.lift, M.pure, requestsGet, h, hb, cartPure]
      | ok v =>
          cases hs : pySliceTwo v with
          | error e =>
              simp [M.bind, M.lift, M.pure, requestsGet, h, hb, hs, cartPure]
          | ok c =>
              simp [M.bind, M.lift, M.pure, requestsGet, h, hb, hs, cartPure]

theorem cartResult_eq (u : UpstreamOutcome) : cartResult u = cartPure u := by
  show (cart (fun _ => u)).1 = cartPure u
  rw [cart_eq]

/-- Claim C1: for every catalog the product service returns as a JSON array
with at least two entries, the `/cart` response is HTTP 200 with a body
whose `cart` field is exactly the first two entries, in order. -/
theorem cart_returns_first_two (a b : Json) (rest : List Json) :
    cartResult (UpstreamOutcome.response ⟨200, some (Json.arr (a :: b :: rest))⟩) =
      Except.ok ⟨200, Json.obj [("cart", Json.arr [a, b])]⟩ := by
  rw [cartResult_eq]
  rfl

/-- Claim C2: every call to `GET /products` returns HTTP 200 with a JSON
body equal to the fixed ordered list Laptop(1), Mouse(2), Keyboard(3). -/
theorem products_fixed_catalog (n : Nat) :
    productsCall n =
      ⟨200, Json.arr
        [ Json.obj [("id", Json.num 1), ("name", Json.str "Laptop")]
        , Json.obj [("id", Json.num 2), ("name", Json.str "Mouse")]
        , Json.obj [("id", Json.num 3), ("name", Json.str "Keyboard")] ]⟩ := by
  rfl

/-- Claim C3, refuted as stated: it is not the case that every "failed"
outbound call (network error, non-JSON body, or non-2xx status) makes the
handler raise.  A 500 response whose body is the JSON array `[]` is served
as a 200 cart response: `requests` does not raise for HTTP error statuses
and `Response.json()` ignores the status code. -/
theorem outbound_fault_claim_refuted :
    ¬ (∀ u : UpstreamOutcome, outboundFailed u →
        ∃ e, cartResult u = Except.error e) := by
  intro h
  have hf : outboundFailed (UpstreamOutcome.response ⟨500, some (Json.arr [])⟩) :=
    Or.inr ⟨⟨500, some (Json.arr [])⟩, rfl, Or.inr (Or.inr (by norm_num))⟩
  rcases h _ hf with ⟨e, he⟩
  rw [cartResult_eq] at he
  exact Except.noConfusion he

/-- Claim C3, amended: if the outbound call fails with a network error the
handler raises the request exception, and if the response body is not
valid JSON the handler raises the JSON decode error; in both cases the
fault is not caught and no 200 cart response is produced.  (A non-2xx
status alone is not a fault: the body is parsed regardless of status.) -/
theorem outbound_fault_amended :
    cartResult UpstreamOutcome.netFail = Except.error PyError.requestException ∧
      ∀ s : Nat, cartResult (UpstreamOutcome.response ⟨s, none⟩) =
        Except.error PyError.jsonDecodeError := by
  constructor
  · rw [cartResult_eq]
    rfl
  · intro s
    rw [cartResult_eq]
    rfl

/-- Claim C4: for every upstream JSON-array catalog, the `cart` sequence is
the two-element truncation of the catalog — its length is at most 2 and it
is a prefix of the catalog (some tail extends it back to the catalog), with
no other selection or reordering. -/
theorem cart_prefix_invariant (s : Nat) (xs : List Json) :
    cartResult (UpstreamOutcome.response ⟨s, some (Json.arr xs)⟩) =
        Except.ok ⟨200, Json.obj [("cart", Json.arr (xs.take 2))]⟩ ∧
      (xs.take 2).length ≤ 2 ∧ ∃ t, xs.take 2 ++ t = xs := by
  refine ⟨?_, ?_, xs.drop 2, xs.take_append_drop 2⟩
  · rw [cartResult_eq]
    rfl
  · exact xs.length_take_le 2

/-- Claim C5: when the upstream catalog has zero or one entries, `/cart`
still succeeds with status 200 and its `cart` field is that same shorter
sequence in full — slicing a shorter sequence never faults. -/
theorem cart_short_catalog (s : Nat) (xs : List Json) (h : xs.length ≤ 1) :
    cartResult (UpstreamOutcome.response ⟨s, some (Json.arr xs)⟩) =
      Except.ok ⟨200, Json.obj [("cart", Json.arr xs)]⟩ := by
  rw [cartResult_eq]
  have htake : xs.take 2 = xs := List.take_of_length_le (h.trans (by norm_num))
  have hstep : cartPure (UpstreamOutcome.response ⟨s, some (Json.arr xs)⟩) =
      Except.ok ⟨200, Json.obj [("cart", Json.arr (xs.take 2))]⟩ := rfl
  rw [hstep, htake]

/-- Witness for claim C5 at the empty catalog. -/
theorem cart_short_catalog_witness :
    cartResult (UpstreamOutcome.response ⟨200, some (Json.arr [])⟩) =
      Except.ok ⟨200, Json.obj [("cart", Json.arr [])]⟩ :=
  cart_short_catalog 200 [] (by decide)

/-- Claim C6: the cart passes its items through unmodified — the response
carries exactly `xs.take 2`, and each position of that truncation holds
the identical element of the upstream array (no filtering or rewriting). -/
theorem cart_elements_passthrough (s : Nat) (xs : List Json) (i : Nat)
    (h : i < (xs.take 2).length) :
    cartResult (UpstreamOutcome.response ⟨s, some (Json.arr xs)⟩) =
        Except.ok ⟨200, Json.obj [("cart", Json.arr (xs.take 2))]⟩ ∧
      (xs.take 2)[i]? = xs[i]? := by
  constructor
  · rw [cartResult_eq]
    rfl
  · have hi : i < 2 := lt_of_lt_of_le h (xs.length_take_le 2)
    rw [List.getElem?_take_of_lt hi]

/-- Witness for claim C6 at the hardcoded catalog, position 1. -/
theorem cart_elements_passthrough_witness :
    cartResult (UpstreamOutcome.response ⟨200, some (Json.arr sample_products)⟩) =
        Except.ok ⟨200, Json.obj [("cart", Json.arr (sample_products.take 2))]⟩ ∧
      (sample_products.take 2)[1]? = sample_products[1]? :=
  cart_elements_passthrough 200 sample_products 1 (by decide)

/-- Claim C7: `/products` is deterministic — any two calls within one
process lifetime return identical replies, namely the three hardcoded
entries in their fixed order. -/
theorem products_deterministic (i j : Nat) :
    productsCall i = productsCall j ∧
      productsCall i = ⟨200, Json.arr sample_products⟩ :=
  ⟨rfl, rfl⟩

/-- Claim C8: `/cart` is idempotent in its observable result — against a
fixed, unchanged network, any two runs produce the identical result and
outbound trace; the handler consults no mutable state (only the immutable
URL constant and the network), so no run can perturb another. -/
theorem cart_idempotent (net : Network) (i j : Nat) :
    cartCall net i = cartCall net j :=
  rfl

/-- Claim C9: every `/cart` run, whatever the network does, issues exactly
one outbound call, a GET addressed to the hardcoded constant
`http://productservice:5001/products`. -/
theorem cart_single_outbound_call (net : Network) :
    (cart net).2 = [⟨"GET", PRODUCT_SERVICE_URL⟩] ∧
      PRODUCT_SERVICE_URL = "http://productservice:5001/products" ∧
      (cart net).2.length = 1 := by
  rw [cart_eq]
  exact ⟨rfl, rfl, rfl⟩

/-- Claim C10: the handler never checks the shape of the parsed upstream
value — it succeeds exactly when the value supports slicing.  A JSON
object body makes the slice raise `TypeError` (an unhandled fault), while
a JSON string body is served as a 200 response whose `cart` field is the
first two characters of the string. -/
theorem cart_slice_typing (s : Nat) (fields : List (String × Json)) (st : String) :
    cartResult (UpstreamOutcome.response ⟨s, some (Json.obj fields)⟩) =
        Except.error PyError.typeError ∧
      cartResult (UpstreamOutcome.response ⟨s, some (Json.str st)⟩) =
        Except.ok ⟨200, Json.obj [("cart", Json.str (st.take 2))]⟩ := by
  constructor
  · rw [cartResult_eq]
    rfl
  · rw [cartResult_eq]
    rfl
